import Mathlib

/-
Verification of the Count-Min Sketch core of the data_structures repository
(src/counting_sketches/count_min_sketch.py).

Shallow embedding notes.

* Items.  An item enters the table only through the deterministic chained
  xxh32 digests computed by `CountMinSketch._hash`: within one process the
  digest for row `i` is a fixed function of the item and of `i`.  We model
  that external hash family as an explicit parameter
  `f : Item → Nat → Nat`, where `f item i` is the integer digest produced
  for `item` at loop iteration `i` (before the `% num_columns` reduction).
  `Item` is `Nat`; distinct naturals stand for distinct Python objects.

* `csv_update` contains the expression `self.query(id)`: `id` is the Python
  builtin function object, not the `item` parameter, so the queried object
  is one fixed extraneous object.  We model it by the designated item
  `idObj`.

* The construction helpers `_row_col_construction` and
  `_error_bound_construction` are classmethods that assign
  `cls.num_rows`, `cls.num_columns`, `cls.num_items`, `cls.counters`:
  the table lives in CLASS attributes shared by every instance.  For a
  single live sketch this coincides with per-instance state, and
  `CMSState` is that view; for `GeneralCountMinSketch`, which constructs
  two instances, `GCMSWorld` models the class attributes explicitly
  together with the per-instance `num_items` shadow attributes created by
  `self.num_items += 1`.

* Exceptions (`ValueError`) are modelled by `Except CMSError`; a raised
  error returns no state, matching the source, whose raises occur before
  any mutation.
-/

/-- Items are identified by the deterministic hash data they contribute;
we use naturals as stand-ins for Python objects. -/
abbrev Item := Nat

/-- The Python builtin `id` function object, queried by the literal
expression `self.query(id)` inside `csv_update`.  It is one fixed object,
distinct from typical inserted items. -/
def idObj : Item := 1

/-- Errors raised by the sketch (`ValueError` with the respective message). -/
inductive CMSError where
  | invalidDimensions
  | invalidErrorBound
  | negativeCount
deriving DecidableEq, Repr

/-- State of a single `CountMinSketch` table: `num_rows`, `num_columns`,
`num_items` and the row-major list of counter rows (Python
`array("l")` of machine longs; counts stay tiny in every scenario here, so
`Int` is the faithful value type). -/
structure CMSState where
  num_rows : Nat
  num_columns : Nat
  num_items : Nat
  counters : List (List Int)
deriving DecidableEq, Repr

/-- The generator `_hash(item)`: for `i` in `range(num_rows)` it yields
`digest % num_columns`, where the digest is the deterministic chained
xxh32 value modelled by `f item i`. -/
def hashIndices (f : Item → Nat → Nat) (numRows numCols : Nat) (item : Item) : List Nat :=
  (List.range numRows).map fun i => f item i % numCols

/-- The expression `min(counter[i] for counter, i in zip(self.counters, self._hash(item)))`
of `CountMinSketch.query`.  Python `zip` truncates to the shorter argument,
as `List.zip` does.  Python `min` raises on an empty sequence; a valid
sketch always has at least two rows, and the `[]` branch returning `0` is
never reached there. -/
def query (f : Item → Nat → Nat) (numRows numCols : Nat)
    (counters : List (List Int)) (item : Item) : Int :=
  match (counters.zip (hashIndices f numRows numCols item)).map
      (fun p => p.1.getD p.2 0) with
  | [] => 0
  | v :: vs => vs.foldl min v

/-- Method form of `query` reading the dimensions and table from the state. -/
def CMSState.queryState (f : Item → Nat → Nat) (s : CMSState) (item : Item) : Int :=
  query f s.num_rows s.num_columns s.counters item

/-- One row after `counter[i] += count`. -/
def addToRow (row : List Int) (j : Nat) (c : Int) : List Int :=
  row.set j (row.getD j 0 + c)

/-- The method `CountMinSketch.update(item, count)`: raises on `count < 0`,
returns unchanged on `count == 0`, otherwise increments `num_items` and
adds `count` to the indexed cell of every row. -/
def CMSState.update (f : Item → Nat → Nat) (s : CMSState) (item : Item)
    (count : Int) : Except CMSError CMSState :=
  if count < 0 then .error .negativeCount
  else if count = 0 then .ok s
  else .ok { s with
    num_items := s.num_items + 1,
    counters := (s.counters.zip (hashIndices f s.num_rows s.num_columns item)).map
      fun p => addToRow p.1 p.2 count }

/-- One iteration of the `csv_update` loop at row `r`: the source evaluates
`min_val = self.query(id)` against the CURRENT table (earlier iterations
have already mutated their rows in place), then performs
`counter[i] = max(counter[i], min_val + count)` on row `r`. -/
def csvStep (f : Item → Nat → Nat) (numRows numCols : Nat) (item : Item)
    (count : Int) (counters : List (List Int)) (r : Nat) : List (List Int) :=
  let minVal := query f numRows numCols counters idObj
  let j := f item r % numCols
  let row := counters.getD r []
  counters.set r (row.set j (max (row.getD j 0) (minVal + count)))

/-- The method `CountMinSketch.csv_update(item, count)` as written in the
source: validation as in `update`, then the loop over
`zip(self.counters, self._hash(item))` (hence
`min num_rows (length counters)` iterations), each iteration querying the
builtin `id` object and raising row `r`'s indexed cell to
`max(cell, query(id) + count)`. -/
def CMSState.csv_update (f : Item → Nat → Nat) (s : CMSState) (item : Item)
    (count : Int) : Except CMSError CMSState :=
  if count < 0 then .error .negativeCount
  else if count = 0 then .ok s
  else .ok { s with
    num_items := s.num_items + 1,
    counters := (List.range (min s.counters.length s.num_rows)).foldl
      (csvStep f s.num_rows s.num_columns item count) s.counters }

/-- Conservative update as the SPEC describes it (for comparison with the
source's `csv_update`): first compute the current point estimate for
`item` itself — the minimum over its indexed cells — then set every
indexed cell to `max(cell, estimate + count)`; validation and the
`num_items` increment exactly as in `update`. -/
def CMSState.csv_update_spec (f : Item → Nat → Nat) (s : CMSState) (item : Item)
    (count : Int) : Except CMSError CMSState :=
  if count < 0 then .error .negativeCount
  else if count = 0 then .ok s
  else
    let est := query f s.num_rows s.num_columns s.counters item
    .ok { s with
      num_items := s.num_items + 1,
      counters := (s.counters.zip (hashIndices f s.num_rows s.num_columns item)).map
        fun p => p.1.set p.2 (max (p.1.getD p.2 0) (est + count)) }

/-- Zero-initialized counter table of the given dimensions. -/
def zeroTable (rows cols : Nat) : List (List Int) :=
  List.replicate rows (List.replicate cols 0)

/-- Construction in direct mode: the validation
`if param1 < 2 or param2 < 2: raise ValueError(...)` from `__init__`
followed by `_row_col_construction`, which installs the dimensions, sets
`num_items = 0` and builds the zero table. -/
def row_col_construction (rows cols : Int) : Except CMSError CMSState :=
  if rows < 2 ∨ cols < 2 then .error .invalidDimensions
  else .ok ⟨rows.toNat, cols.toNat, 0, zeroTable rows.toNat cols.toNat⟩

open scoped Classical in
/-- Construction in error-bound mode: the two validations
`if not 0 < param1 < 1` and `if not 0 < param2 < 1` from `__init__`
followed by `_error_bound_construction`, which sets
`num_rows = int(ceil(-log(error_prob)))` and
`num_columns = int(ceil(exp(1)/error))` and builds the zero table.  The
float computation is idealized to exact reals. -/
noncomputable def error_bound_construction (error error_prob : ℝ) :
    Except CMSError CMSState :=
  if ¬ (0 < error ∧ error < 1) then .error .invalidErrorBound
  else if ¬ (0 < error_prob ∧ error_prob < 1) then .error .invalidErrorBound
  else
    let r := (⌈-Real.log error_prob⌉).toNat
    let c := (⌈Real.exp 1 / error⌉).toNat
    .ok ⟨r, c, 0, zeroTable r c⟩

/-- World state for `GeneralCountMinSketch` under Python's attribute
semantics: the construction classmethods write the table into CLASS
attributes of `CountMinSketch` (`cls`), shared by both instances; the only
per-instance attributes ever created are the `num_items` shadows written
by `self.num_items += 1` (an instance-attribute write after an
instance-then-class attribute read). -/
structure GCMSWorld where
  cls : CMSState
  pos_num_items : Option Nat
  neg_num_items : Option Nat
deriving DecidableEq, Repr

/-- The constructor `GeneralCountMinSketch.__init__` in direct mode: it
runs `CountMinSketch(param1, param2)` twice; each run validates and then
REBINDS the class attributes to a fresh zero table, so the table built for
`sketch_positive` is orphaned and both instances resolve `self.counters`
(and the dimension fields) to the table of the second construction. -/
def gcms_init (rows cols : Int) : Except CMSError GCMSWorld :=
  (row_col_construction rows cols).bind fun _ =>
    (row_col_construction rows cols).map fun s => ⟨s, none, none⟩

/-- The method `CountMinSketch.update` as executed by an instance whose
table fields resolve to the class attributes: mutates the shared
`cls.counters` arrays in place and writes the incremented `num_items`
into the instance's own shadow attribute (reading the class value when no
shadow exists yet). -/
def inst_update (f : Item → Nat → Nat) (cls : CMSState) (instItems : Option Nat)
    (item : Item) (count : Int) : Except CMSError (CMSState × Option Nat) :=
  if count < 0 then .error .negativeCount
  else if count = 0 then .ok (cls, instItems)
  else .ok
    ({ cls with
       counters := (cls.counters.zip (hashIndices f cls.num_rows cls.num_columns item)).map
         fun p => addToRow p.1 p.2 count },
     some (instItems.getD cls.num_items + 1))

/-- The method `GeneralCountMinSketch.update(item, count)`: when
`count < 0` it calls `self.sketch_negative.update(item, count)` with the
count UNCHANGED (still negative), otherwise
`self.sketch_positive.update(item, count)`. -/
def gcms_update (f : Item → Nat → Nat) (w : GCMSWorld) (item : Item)
    (count : Int) : Except CMSError GCMSWorld :=
  if count < 0 then
    (inst_update f w.cls w.neg_num_items item count).map fun p =>
      { w with cls := p.1, neg_num_items := p.2 }
  else
    (inst_update f w.cls w.pos_num_items item count).map fun p =>
      { w with cls := p.1, pos_num_items := p.2 }

/-- The method `GeneralCountMinSketch.query(item)`:
`self.sketch_positive.query(item) - self.sketch_negative.query(item)`;
both instances resolve their table fields to the same class attributes,
so both subtrahend and minuend read the one shared table. -/
def gcms_query (f : Item → Nat → Nat) (w : GCMSWorld) (item : Item) : Int :=
  query f w.cls.num_rows w.cls.num_columns w.cls.counters item
    - query f w.cls.num_rows w.cls.num_columns w.cls.counters item

/-- Observable state of the `sketch_negative` instance: its counter table
(resolved through the class attributes) and its `num_items` view. -/
def negCounters (w : GCMSWorld) : List (List Int) := w.cls.counters

/-- Test hash family for concrete evaluations: `f0 item i` stands for the
chained xxh32 digest of `item` at row `i`; this family sends item `0` to
column `0` of every row and `idObj = 1` to column `1`. -/
def f0 : Item → Nat → Nat := fun item _ => item

/-- The world right after `GeneralCountMinSketch(2, 4)`: one shared
zero table of 2×4 in the class attributes, no instance shadows yet. -/
def g0 : GCMSWorld := ⟨⟨2, 4, 0, zeroTable 2 4⟩, none, none⟩

/-- The world after `g0` followed by one positive update of item `0` by 1
under `f0`: the shared class table has both of item 0's cells at 1. -/
def g1 : GCMSWorld := ⟨⟨2, 4, 0, [[1, 0, 0, 0], [1, 0, 0, 0]]⟩, some 1, none⟩

/-- The world after `g0` followed by one positive update of item `0` by 5
under `f0`. -/
def g5 : GCMSWorld := ⟨⟨2, 4, 0, [[5, 0, 0, 0], [5, 0, 0, 0]]⟩, some 1, none⟩

/-- Claim C1: the source's conservative update does not compute the point
estimate for `item`: the line `min_val = self.query(id)` queries the
Python builtin `id` object (and does so inside the loop).  Concrete
divergence under `f0` on a fresh 2×4 sketch: after `update(0, 10)`,
`csv_update(0, 1)` leaves `query(0)` at 10 (the builtin's estimate is 0,
so the cells stay at `max(10, 0 + 1) = 10`), while the behaviour the claim
describes (`csv_update_spec`) raises the cells to
`max(10, 10 + 1) = 11`. -/
theorem csv_update_queries_wrong_object :
    ((((row_col_construction 2 4).bind fun s => s.update f0 0 10).bind
        fun s => s.csv_update f0 0 1).map fun s => s.queryState f0 0) = .ok 10
    ∧ ((((row_col_construction 2 4).bind fun s => s.update f0 0 10).bind
        fun s => s.csv_update_spec f0 0 1).map fun s => s.queryState f0 0) = .ok 11 :=
  ⟨rfl, rfl⟩

/-- Claim C2: the signed sketch's update does NOT succeed on negative
counts: `GeneralCountMinSketch.update` forwards the still-negative count
to `sketch_negative.update`, whose validation raises the negative-count
`ValueError`.  Concretely, on a fresh signed 2×4 sketch,
`update(0, -1)` raises instead of applying a magnitude-1 update to the
negative internal sketch. -/
theorem gcms_update_negative_raises :
    gcms_init 2 4 = .ok g0
    ∧ gcms_update f0 g0 0 (-1) = .error .negativeCount :=
  ⟨rfl, rfl⟩

/-- Claim C3: the two internal sketches do NOT have disjoint storage.  The
construction classmethods write the table into class attributes, so both
instances of `GeneralCountMinSketch(2, 4)` resolve `counters` to one
shared table: a single positive update of item `0` by 1 changes the
negative instance's counter table and raises the negative instance's
query of item `0` from 0 to 1. -/
theorem gcms_tables_shared :
    gcms_init 2 4 = .ok g0
    ∧ gcms_update f0 g0 0 1 = .ok g1
    ∧ query f0 2 4 (negCounters g0) 0 = 0
    ∧ query f0 2 4 (negCounters g1) 0 = 1
    ∧ negCounters g1 ≠ negCounters g0 := by
  refine ⟨rfl, rfl, rfl, rfl, by decide⟩

/-- Claim C4: the point estimator CAN underestimate the true cumulative
count, because `csv_update` raises cells to `max(cell, query(id) + count)`
with the extraneous builtin `id` object's estimate (stuck at 0 here)
rather than the item's own.  Concretely, on a fresh 2×4 sketch under `f0`,
two calls `csv_update(0, 5)` insert a true cumulative count of 10, yet
`query(0)` returns 5 < 10. -/
theorem query_underestimates_after_csv_update :
    ((((row_col_construction 2 4).bind fun s => s.csv_update f0 0 5).bind
        fun s => s.csv_update f0 0 5).map fun s => s.queryState f0 0) = .ok 5
    ∧ (5 : Int) < 5 + 5 :=
  ⟨rfl, by decide⟩

/-- Claim C5: the signed round-trip does not yield 2.  After
`update(0, +5)` on a fresh signed 2×4 sketch, `update(0, -3)` raises the
negative-count `ValueError` (the composition forwards the negative count
unchanged); moreover even the net estimate after the `+5` alone is 0, not
5, because both internal sketches read the one shared class-level table
and their queries cancel. -/
theorem signed_round_trip_fails :
    gcms_init 2 4 = .ok g0
    ∧ gcms_update f0 g0 0 5 = .ok g5
    ∧ gcms_update f0 g5 0 (-3) = .error .negativeCount
    ∧ gcms_query f0 g5 0 = 0 :=
  ⟨rfl, rfl, rfl, rfl⟩

/-- Helper: on valid error bounds, construction returns the state with the
ceiling-derived dimensions and the zero table. -/
theorem error_bound_construction_ok (ε δ : ℝ) (hε0 : 0 < ε) (hε1 : ε < 1)
    (hδ0 : 0 < δ) (hδ1 : δ < 1) :
    error_bound_construction ε δ =
      .ok ⟨(⌈-Real.log δ⌉).toNat, (⌈Real.exp 1 / ε⌉).toNat, 0,
           zeroTable (⌈-Real.log δ⌉).toNat (⌈Real.exp 1 / ε⌉).toNat⟩ := by
  rw [error_bound_construction, if_neg (not_not_intro ⟨hε0, hε1⟩),
    if_neg (not_not_intro ⟨hδ0, hδ1⟩)]

/-- Claim C6: direct-mode construction errors exactly when `rows < 2` or
`cols < 2` and otherwise yields the zero table of the given dimensions
with `num_items = 0`; error-bound construction errors exactly when
ε ∉ (0,1) or δ ∉ (0,1) and otherwise yields a zero table of the derived
dimensions with `num_items = 0`. -/
theorem construction_validation (rows cols : Int) (ε δ : ℝ) :
    (row_col_construction rows cols = .error .invalidDimensions ↔ rows < 2 ∨ cols < 2)
    ∧ (¬ (rows < 2 ∨ cols < 2) →
        row_col_construction rows cols =
          .ok ⟨rows.toNat, cols.toNat, 0, zeroTable rows.toNat cols.toNat⟩)
    ∧ (error_bound_construction ε δ = .error .invalidErrorBound ↔
        ¬ (0 < ε ∧ ε < 1) ∨ ¬ (0 < δ ∧ δ < 1))
    ∧ ((0 < ε ∧ ε < 1) → (0 < δ ∧ δ < 1) →
        ∃ s, error_bound_construction ε δ = .ok s ∧ s.num_items = 0
          ∧ s.counters = zeroTable s.num_rows s.num_columns) := by
  refine ⟨?_, ?_, ?_, ?_⟩
  · by_cases h : rows < 2 ∨ cols < 2 <;> simp [row_col_construction, h]
  · intro h; simp [row_col_construction, h]
  · by_cases h1 : 0 < ε ∧ ε < 1 <;> by_cases h2 : 0 < δ ∧ δ < 1 <;>
      simp [error_bound_construction, h1, h2]
  · intro h1 h2
    refine ⟨_, error_bound_construction_ok ε δ h1.1 h1.2 h2.1 h2.2, rfl, rfl⟩

/-- Witness for C6 at concrete inputs: `CountMinSketch(1, 3)` raises the
dimension error, `CountMinSketch(3, 4)` yields the 3×4 zero table, and
error-bound construction at ε = δ = 1/2 succeeds with a zero table. -/
theorem construction_validation_witness :
    row_col_construction 1 3 = .error .invalidDimensions
    ∧ row_col_construction 3 4 = .ok ⟨3, 4, 0, zeroTable 3 4⟩
    ∧ (∃ s, error_bound_construction (1/2) (1/2) = .ok s ∧ s.num_items = 0
        ∧ s.counters = zeroTable s.num_rows s.num_columns) :=
  ⟨(construction_validation 1 3 (1/2) (1/2)).1.mpr (by decide),
   (construction_validation 3 4 (1/2) (1/2)).2.1 (by decide),
   (construction_validation 3 4 (1/2) (1/2)).2.2.2 (by norm_num) (by norm_num)⟩

/-- Helper: the ceiling of `-ln(0.01)` is 5, via `e^4 < 100 ≤ e^5`. -/
theorem ceil_neg_log_hundredth : ⌈-Real.log (1/100 : ℝ)⌉ = 5 := by
  have h100 : (0:ℝ) < 100 := by norm_num
  rw [one_div, Real.log_inv, neg_neg, Int.ceil_eq_iff]
  constructor
  · have : ((5:ℤ):ℝ) - 1 = 4 := by norm_num
    rw [this, Real.lt_log_iff_exp_lt h100]
    have h4 : Real.exp 1 ^ (4:ℕ) < 2.7182818286 ^ (4:ℕ) :=
      pow_lt_pow_left₀ Real.exp_one_lt_d9 (le_of_lt (Real.exp_pos 1)) (by norm_num)
    have he : Real.exp 1 ^ (4:ℕ) = Real.exp 4 := by
      rw [Real.exp_one_pow]; norm_num
    calc Real.exp 4 = Real.exp 1 ^ (4:ℕ) := he.symm
      _ < 2.7182818286 ^ (4:ℕ) := h4
      _ < 100 := by norm_num
  · rw [Real.log_le_iff_le_exp h100]
    have h5 : (2.7182818283:ℝ) ^ (5:ℕ) < Real.exp 1 ^ (5:ℕ) :=
      pow_lt_pow_left₀ Real.exp_one_gt_d9 (by norm_num) (by norm_num)
    have he : Real.exp 1 ^ (5:ℕ) = Real.exp 5 := by
      rw [Real.exp_one_pow]; norm_num
    have hc : ((5:ℤ):ℝ) = 5 := by norm_num
    rw [hc]
    refine le_of_lt ?_
    calc (100:ℝ) ≤ (2.7182818283:ℝ) ^ (5:ℕ) := by norm_num
      _ < Real.exp 1 ^ (5:ℕ) := h5
      _ = Real.exp 5 := he

/-- Helper: the ceiling of `e / 0.1` is 28, via `2.7 < e < 2.8`. -/
theorem ceil_e_over_tenth : ⌈Real.exp 1 / (1/10 : ℝ)⌉ = 28 := by
  have hdiv : Real.exp 1 / (1/10 : ℝ) = Real.exp 1 * 10 := by
    field_simp
  rw [hdiv, Int.ceil_eq_iff]
  have hgt := Real.exp_one_gt_d9
  have hlt := Real.exp_one_lt_d9
  constructor
  · have : ((28:ℤ):ℝ) - 1 = 27 := by norm_num
    rw [this]
    nlinarith
  · have : ((28:ℤ):ℝ) = 28 := by norm_num
    rw [this]
    nlinarith

/-- Claim C7: for every ε, δ in (0,1), error-bound construction sets
`num_rows = ceil(-ln δ)` and `num_columns = ceil(e/ε)`; in particular
ε = 0.1 and δ = 0.01 yield 5 rows and 28 columns. -/
theorem error_bound_sizing :
    (∀ ε δ : ℝ, 0 < ε → ε < 1 → 0 < δ → δ < 1 →
      error_bound_construction ε δ =
        .ok ⟨(⌈-Real.log δ⌉).toNat, (⌈Real.exp 1 / ε⌉).toNat, 0,
             zeroTable (⌈-Real.log δ⌉).toNat (⌈Real.exp 1 / ε⌉).toNat⟩)
    ∧ (∃ s, error_bound_construction (1/10) (1/100) = .ok s
        ∧ s.num_rows = 5 ∧ s.num_columns = 28) := by
  refine ⟨fun ε δ a b c d => error_bound_construction_ok ε δ a b c d, ?_⟩
  refine ⟨_, error_bound_construction_ok (1/10) (1/100)
    (by norm_num) (by norm_num) (by norm_num) (by norm_num), ?_, ?_⟩
  · show (⌈-Real.log (1/100:ℝ)⌉).toNat = 5
    rw [ceil_neg_log_hundredth]
    rfl
  · show (⌈Real.exp 1 / (1/10:ℝ)⌉).toNat = 28
    rw [ceil_e_over_tenth]
    rfl

/-- Claim C8: a negative count makes both `update` and `csv_update` raise
the negative-count `ValueError`; the raise happens before any mutation, so
no counter changes and `num_items` is not incremented (the embedding's
error result carries no successor state, mirroring the source, whose
raise precedes every write). -/
theorem negative_count_rejected (f : Item → Nat → Nat) (s : CMSState) (item : Item)
    (count : Int) (h : count < 0) :
    s.update f item count = .error .negativeCount
    ∧ s.csv_update f item count = .error .negativeCount :=
  ⟨by rw [CMSState.update, if_pos h], by rw [CMSState.csv_update, if_pos h]⟩

/-- Witness for C8 at count `-1` on a fresh 2×4 sketch. -/
theorem negative_count_rejected_witness :
    CMSState.update f0 ⟨2, 4, 0, zeroTable 2 4⟩ 0 (-1) = .error .negativeCount
    ∧ CMSState.csv_update f0 ⟨2, 4, 0, zeroTable 2 4⟩ 0 (-1) = .error .negativeCount :=
  negative_count_rejected f0 ⟨2, 4, 0, zeroTable 2 4⟩ 0 (-1) (by decide)

/-- Claim C9: the index generator yields exactly `R` column indices, one
per row, each in `[0, C)`, and is a pure function of the item and the
dimensions, so repeated queries with no intervening update agree. -/
theorem index_generator_contract (f : Item → Nat → Nat) (R C : Nat) (item : Item)
    (hC : 0 < C) :
    (hashIndices f R C item).length = R
    ∧ (∀ j ∈ hashIndices f R C item, j < C)
    ∧ (∀ s : CMSState, s.queryState f item = s.queryState f item) := by
  refine ⟨by simp [hashIndices], ?_, fun s => rfl⟩
  intro j hj
  simp only [hashIndices, List.mem_map, List.mem_range] at hj
  obtain ⟨i, _, rfl⟩ := hj
  exact Nat.mod_lt _ hC

/-- Witness for C9 on a 2×4 sketch under `f0`. -/
theorem index_generator_contract_witness :
    (hashIndices f0 2 4 0).length = 2
    ∧ (∀ j ∈ hashIndices f0 2 4 0, j < 4)
    ∧ (∀ s : CMSState, s.queryState f0 0 = s.queryState f0 0) :=
  index_generator_contract f0 2 4 0 (by decide)

/-- Claim C10: a zero count makes both `update` and `csv_update` return
with the state completely unchanged: no counter moves and `num_items`
(hence `len()`) stays the same. -/
theorem zero_count_noop (f : Item → Nat → Nat) (s : CMSState) (item : Item) :
    s.update f item 0 = .ok s ∧ s.csv_update f item 0 = .ok s :=
  ⟨by rw [CMSState.update, if_neg (by decide), if_pos rfl],
   by rw [CMSState.csv_update, if_neg (by decide), if_pos rfl]⟩

/-- Witness for C10 at item 7 on a fresh 2×4 sketch. -/
theorem zero_count_noop_witness :
    CMSState.update f0 ⟨2, 4, 0, zeroTable 2 4⟩ 7 0 = .ok ⟨2, 4, 0, zeroTable 2 4⟩
    ∧ CMSState.csv_update f0 ⟨2, 4, 0, zeroTable 2 4⟩ 7 0 = .ok ⟨2, 4, 0, zeroTable 2 4⟩ :=
  zero_count_noop f0 ⟨2, 4, 0, zeroTable 2 4⟩ 7
